import Mathlib

/-!
Communautofinder: selector and search loop.

A shallow embedding of `communautofinder.go`.

* `float64` is an abstract carrier `F`.  The arithmetic, the `math` functions and the
  comparisons `<` and `==` are the fields of `FloatOps F`; nothing is assumed about them in
  the definitions.  What IEEE-754 guarantees is stated in `OrderLaws` and `SignLaws` and
  appears as a hypothesis where a proof needs it.  `Float64` with `ieeeOps` is a computable
  instance with NaN and the infinities, used to evaluate the definitions on concrete inputs.
* Go `int` values (vehicle ids, counters) are `Int`; the only arithmetic on them is the
  station counter, which is bounded by the length of the decoded list.
* A pointer result (`*vehicle`) is `Option vehicle`, `nil` being `none`.  The range loop of
  `closestVehicle` declares a fresh `v` in each iteration (Go 1.22 and later), so
  `closest = &v` keeps that iteration's element.
* `ctx` and `cancelCtxFunc` are separate arguments.  The `select` reads `ctx.Done()` only;
  what a call of `cancelCtxFunc` does is given by `Env.cancelCtxFunc`: it panics when the
  function is nil, cancels `ctx` when it is the cancel function of `ctx`, and leaves `ctx`
  alone otherwise.  `responseChannel` is the list of values sent on it; a send does not
  block.
* The HTTP exchange behind `apiCall` and the cancellation of the context by other
  goroutines are inputs of a run, collected in `Env`.
* `searchCar` is its loop body `loopBody` iterated with fuel; an `Outcome` says whether the
  loop is still running, the function returned, a runtime panic is unwinding, or the process
  was ended by `log.Fatal`.
-/

namespace Communautofinder

/-! ## Data model -/

/-- Modelled from the spec: the declaration of `location` is not in the source file; the fields
are the ones `haversine` reads. -/
structure location (F : Type) where
  Latitude : F
  Longitude : F

/-- Modelled from the spec: the declaration of `vehicle` is not in the source file; the fields
are the ones `closestVehicle` and `searchCar` read. -/
structure vehicle (F : Type) where
  VehicleId : Int
  VehicleLocation : location F

/-- Modelled from the spec: the declaration of `Coordinate` is not in the source file; the
fields are the ones `searchCar` reads. -/
structure Coordinate (F : Type) where
  latitude : F
  longitude : F

/-- Modelled from the spec: the declaration of `flexCarResponse` is not in the source file; the
fields are the ones `searchCar` reads. -/
structure flexCarResponse (F : Type) where
  TotalNbVehicles : Int
  Vehicles : List (vehicle F)

/-- Modelled from the spec: the declaration of `station` is not in the source file; the
recommended vehicle id is a nilable pointer, here an `Option`. -/
structure station where
  SatisfiesFilters : Bool
  RecommendedVehicleId : Option Int

/-- Modelled from the spec: the declaration of `stationsResponse` is not in the source file. -/
structure stationsResponse where
  Stations : List station

/-- Modelled from the spec: the declaration of `SearchType` is not in the source file;
`searchCar` is only ever called with these two constants. -/
inductive SearchType where
  | SearchingFlex
  | SearchingStation
  deriving DecidableEq, Repr

/-! ## Geo -/

/-- The `float64` operations the program is built from.  `ofNat` converts the integer
constants of the source, `degToRad` is the constant expression `math.Pi / 180.0`, `lt` is the
Go comparison `<` and `eq` the Go comparison `==` (false of a NaN and itself). -/
structure FloatOps (F : Type) where
  ofNat : Nat → F
  degToRad : F
  add : F → F → F
  sub : F → F → F
  mul : F → F → F
  div : F → F → F
  sin : F → F
  cos : F → F
  sqrt : F → F
  atan2 : F → F → F
  lt : F → F → Bool
  eq : F → F → Bool

/-- The Go comparison `<=`: `<` or `==`, false when either side is NaN. -/
def FloatOps.le {F : Type} (ops : FloatOps F) (x y : F) : Bool :=
  ops.lt x y || ops.eq x y

/-- Go `haversine` (lines 22-37), operation by operation. -/
def haversine {F : Type} (ops : FloatOps F) (coord1 coord2 : location F) : F :=
  let earthRadius := ops.ofNat 6371
  let dLat := ops.mul (ops.sub coord2.Latitude coord1.Latitude) ops.degToRad
  let dLon := ops.mul (ops.sub coord2.Longitude coord1.Longitude) ops.degToRad
  let lat1 := ops.mul coord1.Latitude ops.degToRad
  let lat2 := ops.mul coord2.Latitude ops.degToRad
  let a := ops.add
    (ops.mul (ops.sin (ops.div dLat (ops.ofNat 2))) (ops.sin (ops.div dLat (ops.ofNat 2))))
    (ops.mul
      (ops.mul (ops.mul (ops.cos lat1) (ops.cos lat2)) (ops.sin (ops.div dLon (ops.ofNat 2))))
      (ops.sin (ops.div dLon (ops.ofNat 2))))
  let c := ops.mul (ops.ofNat 2) (ops.atan2 (ops.sqrt a) (ops.sqrt (ops.sub (ops.ofNat 1) a)))
  ops.mul earthRadius c

/-- Facts of IEEE-754 arithmetic and of `math.Sin` about the sign flip `neg`, with all NaNs
taken as one value.  Swapping the operands of a subtraction flips the sign of the result,
except that `x - x` is `+0` (or NaN) both ways; a sign flip passes through `*` and `/`;
`math.Sin` is odd; `*` is commutative. -/
structure SignLaws {F : Type} (ops : FloatOps F) (neg : F → F) : Prop where
  sub_swap : ∀ x y, ops.sub x y = neg (ops.sub y x) ∨ ops.sub x y = ops.sub y x
  neg_mul : ∀ x y, ops.mul (neg x) y = neg (ops.mul x y)
  neg_div : ∀ x y, ops.div (neg x) y = neg (ops.div x y)
  sin_neg : ∀ x, ops.sin (neg x) = neg (ops.sin x)
  neg_mul_neg : ∀ x y, ops.mul (neg x) (neg y) = ops.mul x y
  mul_comm : ∀ x y, ops.mul x y = ops.mul y x

/-- Facts of the IEEE-754 comparisons: `<` is transitive, `x < y` and `y == z` give `x < z`,
and two values that are not NaN (each `==` itself) are related by `<`, `==` or `>`. -/
structure OrderLaws {F : Type} (ops : FloatOps F) : Prop where
  lt_trans : ∀ x y z, ops.lt x y = true → ops.lt y z = true → ops.lt x z = true
  lt_of_lt_of_eq : ∀ x y z, ops.lt x y = true → ops.eq y z = true → ops.lt x z = true
  trichotomy : ∀ x y, ops.eq x x = true → ops.eq y y = true →
    ops.lt x y = true ∨ ops.eq x y = true ∨ ops.lt y x = true

/-- A computable instance of the operations over the rationals, with exact field arithmetic
and the first-order expansions `sin x = x`, `cos x = 1`, `sqrt x = x`, `atan2 y x = y`; it is
used to evaluate the definitions on concrete inputs. -/
def planarOps : FloatOps ℚ where
  ofNat := fun n => (n : ℚ)
  degToRad := 355 / (113 * 180)
  add := fun x y => x + y
  sub := fun x y => x - y
  mul := fun x y => x * y
  div := fun x y => x / y
  sin := fun x => x
  cos := fun _ => 1
  sqrt := fun x => x
  atan2 := fun y _ => y
  lt := fun x y => decide (x < y)
  eq := fun x y => decide (x = y)

/-- A computable model of `float64` values: NaN, the two infinities (`inf true` is negative
infinity) and the finite values, carried as exact rationals.  The rounding of finite results
and the sign of zero are not represented. -/
inductive Float64 where
  | nan
  | inf (negative : Bool)
  | fin (q : ℚ)
  deriving DecidableEq

/-- The largest finite `float64`, `math.MaxFloat64`. -/
def maxFloat64 : ℚ := (2 ^ 53 - 1) * 2 ^ 971

/-- A rational result as a `float64`: beyond `maxFloat64` it overflows to an infinity. -/
def Float64.ofRat (q : ℚ) : Float64 :=
  if maxFloat64 < q then .inf false
  else if q < -maxFloat64 then .inf true
  else .fin q

/-- Sign flip. -/
def Float64.neg : Float64 → Float64
  | .nan => .nan
  | .inf negative => .inf (!negative)
  | .fin q => .fin (-q)

/-- IEEE-754 addition: NaN propagates, opposite infinities give NaN. -/
def Float64.add : Float64 → Float64 → Float64
  | .nan, _ => .nan
  | _, .nan => .nan
  | .inf a, .inf b => if a = b then .inf a else .nan
  | .inf a, .fin _ => .inf a
  | .fin _, .inf b => .inf b
  | .fin p, .fin q => Float64.ofRat (p + q)

/-- IEEE-754 subtraction. -/
def Float64.sub (x y : Float64) : Float64 :=
  Float64.add x (Float64.neg y)

/-- IEEE-754 multiplication: NaN propagates, infinity times zero is NaN. -/
def Float64.mul : Float64 → Float64 → Float64
  | .nan, _ => .nan
  | _, .nan => .nan
  | .inf a, .inf b => .inf (xor a b)
  | .inf a, .fin q => if q = 0 then .nan else .inf (xor a (decide (q < 0)))
  | .fin p, .inf b => if p = 0 then .nan else .inf (xor (decide (p < 0)) b)
  | .fin p, .fin q => Float64.ofRat (p * q)

/-- IEEE-754 division: NaN propagates, infinity by infinity and zero by zero are NaN. -/
def Float64.div : Float64 → Float64 → Float64
  | .nan, _ => .nan
  | _, .nan => .nan
  | .inf _, .inf _ => .nan
  | .inf a, .fin q => .inf (xor a (decide (q < 0)))
  | .fin _, .inf _ => .fin 0
  | .fin p, .fin q =>
    if q = 0 then (if p = 0 then .nan else .inf (decide (p < 0)))
    else Float64.ofRat (p / q)

/-- The value 355/113 standing for pi in the finite results below. -/
def piApprox : ℚ := 355 / 113

/-- Go `math.Sin`: NaN for NaN and the infinities.  On a finite argument the model returns
the argument clamped to [-1, 1], which is the sine at 0 and bounded and odd like it. -/
def Float64.sin : Float64 → Float64
  | .nan => .nan
  | .inf _ => .nan
  | .fin q => .fin (max (-1) (min 1 q))

/-- Go `math.Cos`: NaN for NaN and the infinities.  On a finite argument the model returns
`1 - q^2/2` clamped to [-1, 1], which is the cosine at 0 and bounded and even like it. -/
def Float64.cos : Float64 → Float64
  | .nan => .nan
  | .inf _ => .nan
  | .fin q => .fin (max (-1) (1 - q * q / 2))

/-- Go `math.Sqrt`: NaN for NaN, for negative infinity and for negative arguments.  On a
finite argument from 0 on the model returns the argument, which is the root at 0 and at 1. -/
def Float64.sqrt : Float64 → Float64
  | .nan => .nan
  | .inf negative => if negative then .nan else .inf false
  | .fin q => if q < 0 then .nan else .fin q

/-- Go `math.Atan2`: NaN when an argument is NaN, the multiples of pi/4 of the special cases
with an infinity.  On finite arguments with `x > 0` the model returns `y / x`, which is the
angle at `y = 0`; elsewhere a right or straight angle is added. -/
def Float64.atan2 : Float64 → Float64 → Float64
  | .nan, _ => .nan
  | _, .nan => .nan
  | .inf a, .inf b =>
    .fin ((if a then -1 else 1) * (if b then 3 * piApprox / 4 else piApprox / 4))
  | .inf a, .fin _ => .fin ((if a then -1 else 1) * (piApprox / 2))
  | .fin y, .inf b => if b then .fin (if y < 0 then -piApprox else piApprox) else .fin 0
  | .fin y, .fin x =>
    if 0 < x then Float64.ofRat (y / x)
    else if x < 0 then Float64.ofRat (y / x + (if y < 0 then -piApprox else piApprox))
    else .fin (if y < 0 then -(piApprox / 2) else if 0 < y then piApprox / 2 else 0)

/-- Go `<` on `float64`: false when either side is NaN. -/
def Float64.lt : Float64 → Float64 → Bool
  | .nan, _ => false
  | _, .nan => false
  | .inf a, .inf b => a && !b
  | .inf a, .fin _ => a
  | .fin _, .inf b => !b
  | .fin p, .fin q => decide (p < q)

/-- Go `==` on `float64`: false when either side is NaN. -/
def Float64.eq : Float64 → Float64 → Bool
  | .nan, _ => false
  | _, .nan => false
  | .inf a, .inf b => a == b
  | .inf _, .fin _ => false
  | .fin _, .inf _ => false
  | .fin p, .fin q => decide (p = q)

/-- The operations of the `Float64` model. -/
def ieeeOps : FloatOps Float64 where
  ofNat := fun n => Float64.ofRat (n : ℚ)
  degToRad := .fin (piApprox / 180)
  add := Float64.add
  sub := Float64.sub
  mul := Float64.mul
  div := Float64.div
  sin := Float64.sin
  cos := Float64.cos
  sqrt := Float64.sqrt
  atan2 := Float64.atan2
  lt := Float64.lt
  eq := Float64.eq

/-! ## Selector -/

/-- The `for _, v := range vehicles[1:]` loop of `closestVehicle` (lines 51-57), carrying
`closest` and `closestDistance`.  Each iteration has its own `v`, so `&v` is that iteration's
element. -/
def closestLoop {F : Type} (ops : FloatOps F) (target : location F) :
    List (vehicle F) → vehicle F → F → vehicle F
  | [], closest, _ => closest
  | v :: rest, closest, closestDistance =>
    let distance := haversine ops v.VehicleLocation target
    if ops.lt distance closestDistance then
      closestLoop ops target rest v distance
    else
      closestLoop ops target rest closest closestDistance

/-- Go `closestVehicle` (lines 40-60). -/
def closestVehicle {F : Type} (ops : FloatOps F) (vehicles : List (vehicle F))
    (target : location F) : Option (vehicle F) :=
  match vehicles with
  | [] => none
  | [only] => some only
  | first :: rest =>
    some (closestLoop ops target rest first (haversine ops first.VehicleLocation target))

/-! ## Fetcher -/

/-- What the network gives back for one `http.Get`: a transport failure, or a response with
its status code and the result of decoding its JSON body into the target shape (`none` when
the body does not decode). -/
inductive HttpReply (R : Type) where
  | transportError
  | response (statusCode : Nat) (decoded : Option R)

/-- How a call of `apiCall` ends: `log.Fatal` ends the process, otherwise the call returns
`err` (`none` is `nil`, `some code` is the error built from the status code) and leaves
`response` in the caller's variable. -/
inductive ApiResult (R : Type) where
  | fatal
  | returned (err : Option Nat) (response : R)

/-- Go `apiCall` (lines 188-212); `response` is the caller's variable before the call. -/
def apiCall {R : Type} (reply : HttpReply R) (response : R) : ApiResult R :=
  match reply with
  | .transportError => .fatal
  | .response statusCode decoded =>
    if statusCode = 200 then
      match decoded with
      | some r => .returned none r
      | none => .fatal
    else
      .returned (some statusCode) response

/-! ## SearchLoop -/

/-- The argument `cancelCtxFunc`: a nil function value, the cancel function of `ctx`, or
another function, whose call leaves `ctx` as it is. -/
inductive CancelFunc where
  | nil
  | ofCtx
  | other
  deriving DecidableEq, Repr

/-- The inputs of one run that come from outside the function: `ctxDone i` says whether
another goroutine has cancelled `ctx` by the time the `select` of loop iteration `i` runs;
`flexReplies k` and `stationReplies k` are what the network gives back for fetch number `k`;
`cancelCtxFunc` is the function passed as `cancelCtxFunc`. -/
structure Env (F : Type) where
  ctxDone : Nat → Bool
  flexReplies : Nat → HttpReply (flexCarResponse F)
  stationReplies : Nat → HttpReply stationsResponse
  cancelCtxFunc : CancelFunc

/-- The variables of `searchCar` that change while it loops, with the number of loop
iterations and fetches done so far, whether `ctx` was cancelled by a call of `cancelCtxFunc`,
and the values sent on `responseChannel`. -/
structure LoopState where
  msSecondeToSleep : Nat
  iteration : Nat
  fetches : Nat
  ctxCancelled : Bool
  delivered : List Int
  deriving DecidableEq, Repr

/-- Where a run stands: still looping, returned `value`, unwinding a runtime panic, or ended
with the process by `log.Fatal`; each with the values sent on `responseChannel`. -/
inductive Outcome where
  | running (s : LoopState)
  | returned (value : Int) (delivered : List Int)
  | panicked (delivered : List Int)
  | exited (delivered : List Int)
  deriving DecidableEq, Repr

/-- What the fetch branch of one iteration has done when it reaches `if nbCarFound > 0`:
`log.Fatal` ended the process, a runtime panic was raised, or `err` and `nbCarFound` are set
(and `cancelCtxFunc` was called if `err` is not nil). -/
inductive Computed where
  | fatal
  | panic
  | value (err : Option Nat) (nbCarFound : Int)
  deriving DecidableEq, Repr

/-- Lines 147-158: `nbCarFound` after the Flex interpretation of `flexAvailable`, starting from
0; `none` is the index-out-of-range panic of `flexAvailable.Vehicles[0]`. -/
def flexCount {F : Type} (ops : FloatOps F) (flexAvailable : flexCarResponse F)
    (currentCoordinate : Coordinate F) : Option Int :=
  if flexAvailable.TotalNbVehicles > 0 then
    match closestVehicle ops flexAvailable.Vehicles
        ⟨currentCoordinate.latitude, currentCoordinate.longitude⟩ with
    | some closest => some closest.VehicleId
    | none =>
      match flexAvailable.Vehicles with
      | first :: _ => some first.VehicleId
      | [] => none
  else
    some 0

/-- Lines 164-168: the loop over `stationsAvailable.Stations`, carrying `nbCarFound`. -/
def stationCount : List station → Int → Int
  | [], nbCarFound => nbCarFound
  | station :: rest, nbCarFound =>
    if station.SatisfiesFilters && station.RecommendedVehicleId.isSome then
      stationCount rest (nbCarFound + 1)
    else
      stationCount rest nbCarFound

/-- Lines 171-173: `if err != nil { cancelCtxFunc() }`; calling a nil function panics. -/
def selfCancel {F : Type} (env : Env F) (err : Option Nat) (nbCarFound : Int) : Computed :=
  if err.isSome && decide (env.cancelCtxFunc = .nil) then .panic
  else .value err nbCarFound

/-- Lines 137-173: fetch number `k`, its interpretation in the given mode, and the call of
`cancelCtxFunc` when the fetch returned an error. -/
def fetchAndCount {F : Type} (ops : FloatOps F) (searchingType : SearchType)
    (currentCoordinate : Coordinate F) (env : Env F) (k : Nat) : Computed :=
  match searchingType with
  | .SearchingFlex =>
    match apiCall (env.flexReplies k) ⟨0, []⟩ with
    | .fatal => .fatal
    | .returned err flexAvailable =>
      match flexCount ops flexAvailable currentCoordinate with
      | some nbCarFound => selfCancel env err nbCarFound
      | none => .panic
  | .SearchingStation =>
    match apiCall (env.stationReplies k) ⟨[]⟩ with
    | .fatal => .fatal
    | .returned err stationsAvailable =>
      selfCancel env err (stationCount stationsAvailable.Stations 0)

/-- The `err` that `apiCall` returns for fetch number `k` in the given mode (lines 144 and
162); `none` when it is nil or when `apiCall` does not return. -/
def fetchErr {F : Type} (searchingType : SearchType) (env : Env F) (k : Nat) : Option Nat :=
  match searchingType with
  | .SearchingFlex =>
    match apiCall (env.flexReplies k) ⟨0, []⟩ with
    | .fatal => none
    | .returned err _ => err
  | .SearchingStation =>
    match apiCall (env.stationReplies k) ⟨[]⟩ with
    | .fatal => none
    | .returned err _ => err

/-- Lines 137-181: the branch of the loop body taken when `msSecondeToSleep` is 0. -/
def fetchBranch {F : Type} (ops : FloatOps F) (searchingType : SearchType)
    (currentCoordinate : Coordinate F) (env : Env F) (s : LoopState) : Outcome :=
  match fetchAndCount ops searchingType currentCoordinate env s.fetches with
  | .fatal => .exited s.delivered
  | .panic => .panicked s.delivered
  | .value err nbCarFound =>
    if nbCarFound > 0 then
      .returned nbCarFound (s.delivered ++ [nbCarFound])
    else
      .running
        { msSecondeToSleep := 1500
          iteration := s.iteration + 1
          fetches := s.fetches + 1
          ctxCancelled := s.ctxCancelled || (err.isSome && decide (env.cancelCtxFunc = .ofCtx))
          delivered := s.delivered }

/-- Lines 127-183: one iteration of the `for` loop.  `ctx.Done()` is ready when `ctx` was
cancelled, by an earlier call of its own cancel function or by another goroutine. -/
def loopBody {F : Type} (ops : FloatOps F) (searchingType : SearchType)
    (currentCoordinate : Coordinate F) (env : Env F) (s : LoopState) : Outcome :=
  if s.ctxCancelled || env.ctxDone s.iteration then
    .returned (-1) (s.delivered ++ [-1])
  else if s.msSecondeToSleep > 0 then
    .running { s with msSecondeToSleep := s.msSecondeToSleep - 1, iteration := s.iteration + 1 }
  else
    fetchBranch ops searchingType currentCoordinate env s

/-- The `for` loop of `searchCar` run for at most `fuel` iterations from state `s`. -/
def searchLoop {F : Type} (ops : FloatOps F) (searchingType : SearchType)
    (currentCoordinate : Coordinate F) (env : Env F) : Nat → LoopState → Outcome
  | 0, s => .running s
  | fuel + 1, s =>
    match loopBody ops searchingType currentCoordinate env s with
    | .running next => searchLoop ops searchingType currentCoordinate env fuel next
    | done => done

/-- The state in which `searchCar` enters its loop: `msSecondeToSleep := 0`, nothing sent. -/
def initialState : LoopState :=
  { msSecondeToSleep := 0, iteration := 0, fetches := 0, ctxCancelled := false, delivered := [] }

/-- Go `searchCar` (lines 106-185), run for at most `fuel` loop iterations.  The request URL
built before the loop only selects what the network is asked; the replies are in `env`. -/
def searchCar {F : Type} (ops : FloatOps F) (fuel : Nat)
    (searchingType : SearchType) (currentCoordinate : Coordinate F) (env : Env F) : Outcome :=
  searchLoop ops searchingType currentCoordinate env fuel initialState

/-! ## Entry points -/

/-- The context made by `context.WithCancel(context.Background())` inside the blocking entry
points: no other goroutine holds its cancel function, and `cancel` is passed as
`cancelCtxFunc`. -/
def ownContext {F : Type} (env : Env F) : Env F :=
  { env with ctxDone := fun _ => false, cancelCtxFunc := .ofCtx }

/-- Go `SearchStationCar` (lines 62-69). -/
def SearchStationCar {F : Type} (ops : FloatOps F) (fuel : Nat)
    (currentCoordinate : Coordinate F) (env : Env F) : Outcome :=
  searchCar ops fuel .SearchingStation currentCoordinate (ownContext env)

/-- Go `SearchFlexCar` (lines 72-79). -/
def SearchFlexCar {F : Type} (ops : FloatOps F) (fuel : Nat)
    (currentCoordinate : Coordinate F) (env : Env F) : Outcome :=
  searchCar ops fuel .SearchingFlex currentCoordinate (ownContext env)

/-- The deferred function of the two goroutine entry points (lines 83-88, 95-100): a panic of
the body is recovered, -1 is sent on `responseChannel`, and the function returns the zero value
of its unnamed `int` result. -/
def recoverBoundary : Outcome → Outcome
  | .panicked delivered => .returned 0 (delivered ++ [-1])
  | body => body

/-- Go `SearchStationCarForGoRoutine` (lines 82-91). -/
def SearchStationCarForGoRoutine {F : Type} (ops : FloatOps F) (fuel : Nat)
    (currentCoordinate : Coordinate F) (env : Env F) : Outcome :=
  recoverBoundary (searchCar ops fuel .SearchingStation currentCoordinate env)

/-- Go `SearchFlexCarForGoRoutine` (lines 94-103). -/
def SearchFlexCarForGoRoutine {F : Type} (ops : FloatOps F) (fuel : Nat)
    (currentCoordinate : Coordinate F) (env : Env F) : Outcome :=
  recoverBoundary (searchCar ops fuel .SearchingFlex currentCoordinate env)

/-! ## Properties and sample inputs used in the statements -/

/-- An outcome reached from a state whose channel history was `base` has sent nothing more
while running, panicking or exiting, and exactly the returned value when it returned. -/
def Outcome.SentFrom (base : List Int) : Outcome → Prop
  | .running s => s.delivered = base
  | .returned value delivered => delivered = base ++ [value]
  | .panicked delivered => delivered = base
  | .exited delivered => delivered = base

/-- The predicate of the station count: the filters are satisfied and a recommended vehicle id
is present. -/
def station.counted (st : station) : Bool :=
  st.SatisfiesFilters && st.RecommendedVehicleId.isSome

/-- The coordinate (45.50, -73.57) of the spec scenario. -/
def montreal : Coordinate ℚ := ⟨455 / 10, -7357 / 100⟩

/-- An environment over the rationals that gives the same reply to every fetch, with the
cancel function of `ctx` passed as `cancelCtxFunc`. -/
def constEnv (ctxDone : Nat → Bool) (flexReply : HttpReply (flexCarResponse ℚ))
    (stationReply : HttpReply stationsResponse) : Env ℚ :=
  { ctxDone := ctxDone
    flexReplies := fun _ => flexReply
    stationReplies := fun _ => stationReply
    cancelCtxFunc := .ofCtx }

/-- The same environment with another function passed as `cancelCtxFunc`. -/
def Env.withCancelFunc {F : Type} (env : Env F) (cancelCtxFunc : CancelFunc) : Env F :=
  { env with cancelCtxFunc := cancelCtxFunc }

/-- The coordinate (-1e308, 0): its latitude differs from the latitude 1e308 by more than
the largest finite `float64`. -/
def farSouth : Coordinate Float64 := ⟨.fin (-(10 ^ 308)), .fin 0⟩

/-- Vehicle 1 at (1e308, 0) and vehicle 2 at (-1e308, 0). -/
def farVehicles : List (vehicle Float64) :=
  [⟨1, ⟨.fin (10 ^ 308), .fin 0⟩⟩, ⟨2, ⟨.fin (-(10 ^ 308)), .fin 0⟩⟩]

/-- The two vehicles of the spec scenario in the `Float64` model. -/
def scenarioVehicles : List (vehicle Float64) :=
  [⟨7, ⟨.fin (45501 / 1000), .fin (-73571 / 1000)⟩⟩, ⟨9, ⟨.fin (456 / 10), .fin (-737 / 10)⟩⟩]

/-- The coordinate (45.50, -73.57) in the `Float64` model. -/
def scenarioTarget : Coordinate Float64 := ⟨.fin (455 / 10), .fin (-7357 / 100)⟩

/-- An environment over `Float64` that gives the same reply to every Flex fetch. -/
def flexEnv (flexReply : HttpReply (flexCarResponse Float64)) : Env Float64 :=
  { ctxDone := fun _ => false
    flexReplies := fun _ => flexReply
    stationReplies := fun _ => .transportError
    cancelCtxFunc := .ofCtx }

/-- Four stations, two of which satisfy the filters and have a recommended vehicle. -/
def sampleStations : List station :=
  [⟨true, some 11⟩, ⟨true, none⟩, ⟨false, some 12⟩, ⟨true, some 13⟩]

/-- The two vehicles of the spec scenario, ids 7 and 9. -/
def sampleVehicles : List (vehicle ℚ) :=
  [⟨7, ⟨45501 / 1000, -73571 / 1000⟩⟩, ⟨9, ⟨456 / 10, -737 / 10⟩⟩]

/-! ## The Float64 model: laws and evaluations -/

/-- Overflow commutes with the sign flip. -/
theorem Float64.ofRat_neg (q : ℚ) : Float64.ofRat (-q) = Float64.neg (Float64.ofRat q) := by
  have hmax : (0 : ℚ) < maxFloat64 := by unfold maxFloat64; norm_num
  unfold Float64.ofRat
  by_cases h1 : maxFloat64 < q
  · have h2 : ¬ maxFloat64 < -q := by linarith
    have h3 : -q < -maxFloat64 := by linarith
    simp [h1, h2, h3, Float64.neg]
  · by_cases h4 : q < -maxFloat64
    · have h5 : maxFloat64 < -q := by linarith
      simp [h1, h4, h5, Float64.neg]
    · have h6 : ¬ maxFloat64 < -q := by linarith
      have h7 : ¬ -q < -maxFloat64 := by linarith
      simp [h1, h4, h6, h7, Float64.neg]

/-- The sign flip of NaN. -/
theorem Float64.neg_nan : Float64.neg .nan = .nan := rfl

/-- The sign flip of an infinity. -/
theorem Float64.neg_inf (a : Bool) : Float64.neg (.inf a) = .inf (!a) := rfl

/-- The sign flip of a finite value. -/
theorem Float64.neg_fin (q : ℚ) : Float64.neg (.fin q) = .fin (-q) := rfl

/-- Clamping to [-1, 1] is odd. -/
theorem clamp_neg (q : ℚ) : max (-1) (min 1 (-q)) = -(max (-1) (min 1 q)) := by
  rcases le_total q 1 with h1 | h1 <;> rcases le_total q (-1) with h2 | h2 <;>
    simp [max_def, min_def] <;> split_ifs <;> linarith

/-- A non-zero rational is positive exactly when it is not negative. -/
theorem decide_pos_eq (q : ℚ) (hq : q ≠ 0) : decide (0 < q) = !decide (q < 0) := by
  rcases lt_or_gt_of_ne hq with h | h
  · have h2 : ¬ 0 < q := by linarith
    simp [h, h2]
  · have h2 : ¬ q < 0 := by linarith
    simp [h, h2]

/-- The comparisons of the model obey the order laws. -/
theorem ieeeOps_orderLaws : OrderLaws ieeeOps where
  lt_trans := by
    intro x y z hxy hyz
    cases x <;> cases y <;> cases z <;> simp_all [ieeeOps, Float64.lt]
    exact lt_trans hxy hyz
  lt_of_lt_of_eq := by
    intro x y z hxy hyz
    cases x <;> cases y <;> cases z <;> simp_all [ieeeOps, Float64.lt, Float64.eq]
  trichotomy := by
    intro x y hx hy
    cases x <;> cases y <;> simp_all [ieeeOps, Float64.lt, Float64.eq]
    · rename_i a b
      cases a <;> cases b <;> simp
    · rename_i p q
      rcases lt_trichotomy p q with h | h | h
      · exact Or.inl h
      · exact Or.inr (Or.inl h)
      · exact Or.inr (Or.inr h)

/-- The arithmetic of the model obeys the sign laws. -/
theorem ieeeOps_signLaws : SignLaws ieeeOps Float64.neg where
  sub_swap := by
    intro x y
    left
    cases x <;> cases y <;>
      simp [ieeeOps, Float64.sub, Float64.add, Float64.neg_nan, Float64.neg_inf,
        Float64.neg_fin]
    · rename_i a b
      cases a <;> cases b <;> simp [Float64.neg_nan, Float64.neg_inf]
    · rename_i p q
      rw [← Float64.ofRat_neg]
      congr 1
      ring
  neg_mul := by
    intro x y
    cases x <;> cases y <;>
      simp [ieeeOps, Float64.mul, Float64.neg_nan, Float64.neg_inf, Float64.neg_fin]
    · rename_i a q
      by_cases hq : q = 0 <;> simp [hq, Float64.neg_nan, Float64.neg_inf]
    · rename_i p b
      by_cases hp : p = 0
      · simp [hp, Float64.neg_nan]
      · simp [hp, Float64.neg_inf, decide_pos_eq p hp]
    · rename_i p q
      rw [← Float64.ofRat_neg]
  neg_div := by
    intro x y
    cases x <;> cases y <;>
      simp [ieeeOps, Float64.div, Float64.neg_nan, Float64.neg_inf, Float64.neg_fin]
    · rename_i p q
      by_cases hq : q = 0
      · by_cases hp : p = 0
        · simp [hq, hp, Float64.neg_nan]
        · simp [hq, hp, Float64.neg_inf, decide_pos_eq p hp]
      · simp [hq, neg_div, Float64.ofRat_neg]
  sin_neg := by
    intro x
    cases x <;> simp [ieeeOps, Float64.sin, Float64.neg_nan, Float64.neg_inf, Float64.neg_fin]
    exact clamp_neg _
  neg_mul_neg := by
    intro x y
    cases x <;> cases y <;>
      simp [ieeeOps, Float64.mul, Float64.neg_nan, Float64.neg_inf, Float64.neg_fin]
    · rename_i a q
      by_cases hq : q = 0
      · simp [hq]
      · simp [hq, decide_pos_eq q hq]
    · rename_i p b
      by_cases hp : p = 0
      · simp [hp]
      · simp [hp, decide_pos_eq p hp]
  mul_comm := by
    intro x y
    cases x <;> cases y <;> simp [ieeeOps, Float64.mul, Bool.xor_comm, mul_comm]

/-- From latitude 1e308 to latitude -1e308 the difference overflows to an infinity, its sine
is NaN, and so is the distance. -/
theorem haversine_far_nan :
    haversine ieeeOps ⟨.fin (10 ^ 308), .fin 0⟩ ⟨.fin (-(10 ^ 308)), .fin 0⟩ = .nan := by
  simp [haversine, ieeeOps, Float64.sub, Float64.add, Float64.neg, Float64.mul, Float64.div,
    Float64.sin, Float64.cos, Float64.sqrt, Float64.atan2, Float64.ofRat, maxFloat64, piApprox]
  norm_num

/-- The same overflow in the other direction. -/
theorem haversine_far_nan_swapped :
    haversine ieeeOps ⟨.fin (-(10 ^ 308)), .fin 0⟩ ⟨.fin (10 ^ 308), .fin 0⟩ = .nan := by
  simp [haversine, ieeeOps, Float64.sub, Float64.add, Float64.neg, Float64.mul, Float64.div,
    Float64.sin, Float64.cos, Float64.sqrt, Float64.atan2, Float64.ofRat, maxFloat64, piApprox]
  norm_num

/-- From a point to itself the distance is 0. -/
theorem haversine_far_zero :
    haversine ieeeOps ⟨.fin (-(10 ^ 308)), .fin 0⟩ ⟨.fin (-(10 ^ 308)), .fin 0⟩ = .fin 0 := by
  simp [haversine, ieeeOps, Float64.sub, Float64.add, Float64.neg, Float64.mul, Float64.div,
    Float64.sin, Float64.cos, Float64.sqrt, Float64.atan2, Float64.ofRat, maxFloat64, piApprox]
  norm_num

/-- In the spec scenario no distance is NaN. -/
theorem scenario_distances_not_nan :
    ∀ w ∈ scenarioVehicles,
      ieeeOps.eq
        (haversine ieeeOps w.VehicleLocation
          ⟨scenarioTarget.latitude, scenarioTarget.longitude⟩)
        (haversine ieeeOps w.VehicleLocation
          ⟨scenarioTarget.latitude, scenarioTarget.longitude⟩) = true := by
  intro w hw
  simp only [scenarioVehicles, List.mem_cons, List.mem_singleton, List.not_mem_nil,
    or_false] at hw
  rcases hw with hw | hw <;> subst hw
  · simp [scenarioTarget, haversine, ieeeOps, Float64.sub, Float64.add, Float64.neg,
      Float64.mul, Float64.div, Float64.sin, Float64.cos, Float64.sqrt, Float64.atan2,
      Float64.ofRat, maxFloat64, piApprox, Float64.eq]
    norm_num [Float64.eq, max_def, min_def]
  · simp [scenarioTarget, haversine, ieeeOps, Float64.sub, Float64.add, Float64.neg,
      Float64.mul, Float64.div, Float64.sin, Float64.cos, Float64.sqrt, Float64.atan2,
      Float64.ofRat, maxFloat64, piApprox, Float64.eq]
    norm_num [Float64.eq, max_def, min_def]

/-- In the spec scenario the selector returns vehicle 7. -/
theorem scenario_closest :
    closestVehicle ieeeOps scenarioVehicles ⟨scenarioTarget.latitude, scenarioTarget.longitude⟩
      = some ⟨7, ⟨.fin (45501 / 1000), .fin (-73571 / 1000)⟩⟩ := by
  simp [closestVehicle, closestLoop, scenarioVehicles, scenarioTarget, haversine, ieeeOps,
    Float64.sub, Float64.add, Float64.neg, Float64.mul, Float64.div, Float64.sin, Float64.cos,
    Float64.sqrt, Float64.atan2, Float64.ofRat, maxFloat64, piApprox, Float64.lt]
  norm_num [Float64.lt, max_def, min_def]

/-- With vehicle 1 at a NaN distance first in the list, the selector keeps it. -/
theorem far_closest :
    closestVehicle ieeeOps farVehicles ⟨farSouth.latitude, farSouth.longitude⟩
      = some ⟨1, ⟨.fin (10 ^ 308), .fin 0⟩⟩ := by
  simp only [closestVehicle, closestLoop, farVehicles, farSouth, haversine_far_nan,
    haversine_far_zero]
  simp [ieeeOps, Float64.lt]

/-! ## Selector: proofs -/

/-- The loop of `closestVehicle` returns one of the vehicles it was given or has seen. -/
theorem closestLoop_index {F : Type} (ops : FloatOps F) (target : location F)
    (rest : List (vehicle F)) :
    ∀ (seen : List (vehicle F)) (closest : vehicle F) (closestDistance : F) (i : Nat),
      seen[i]? = some closest →
      ∃ k : Nat,
        (seen ++ rest)[k]? = some (closestLoop ops target rest closest closestDistance) := by
  induction rest with
  | nil =>
    intro seen closest closestDistance i hi
    exact ⟨i, by simpa [closestLoop] using hi⟩
  | cons v rest ih =>
    intro seen closest closestDistance i hi
    have hilt : i < seen.length := by
      by_contra hge
      rw [List.getElem?_eq_none (Nat.le_of_not_lt hge)] at hi
      exact Option.noConfusion hi
    have hsplit : seen ++ v :: rest = (seen ++ [v]) ++ rest := by simp
    rw [hsplit]
    by_cases hlt : ops.lt (haversine ops v.VehicleLocation target) closestDistance = true
    · have hloop : closestLoop ops target (v :: rest) closest closestDistance
          = closestLoop ops target rest v (haversine ops v.VehicleLocation target) := by
        simp [closestLoop, hlt]
      rw [hloop]
      exact ih (seen ++ [v]) v _ seen.length (by simp)
    · have hloop : closestLoop ops target (v :: rest) closest closestDistance
          = closestLoop ops target rest closest closestDistance := by
        simp [closestLoop, hlt]
      rw [hloop]
      exact ih (seen ++ [v]) closest _ i (by rw [List.getElem?_append_left hilt]; exact hi)

/-- The loop of `closestVehicle` keeps its invariant when no distance is NaN: if `closest`
sits at position `i` of the vehicles seen so far, is nowhere farther than any of them and
strictly nearer than all before it, then the result has the same three properties with
respect to the whole list. -/
theorem closestLoop_spec {F : Type} (ops : FloatOps F) (laws : OrderLaws ops)
    (target : location F) (rest : List (vehicle F)) :
    ∀ (seen : List (vehicle F)) (closest : vehicle F) (i : Nat),
      seen[i]? = some closest →
      (∀ w ∈ seen ++ rest, ops.eq (haversine ops w.VehicleLocation target)
        (haversine ops w.VehicleLocation target) = true) →
      (∀ w ∈ seen, ops.le (haversine ops closest.VehicleLocation target)
        (haversine ops w.VehicleLocation target) = true) →
      (∀ w ∈ seen.take i, ops.lt (haversine ops closest.VehicleLocation target)
        (haversine ops w.VehicleLocation target) = true) →
      ∃ k, (seen ++ rest)[k]? = some (closestLoop ops target rest closest
            (haversine ops closest.VehicleLocation target)) ∧
        (∀ w ∈ seen ++ rest,
          ops.le (haversine ops (closestLoop ops target rest closest
            (haversine ops closest.VehicleLocation target)).VehicleLocation target)
            (haversine ops w.VehicleLocation target) = true) ∧
        (∀ w ∈ (seen ++ rest).take k,
          ops.lt (haversine ops (closestLoop ops target rest closest
            (haversine ops closest.VehicleLocation target)).VehicleLocation target)
            (haversine ops w.VehicleLocation target) = true) := by
  induction rest with
  | nil =>
    intro seen closest i hi _ hmin hfirst
    refine ⟨i, ?_, ?_, ?_⟩
    · simpa [closestLoop] using hi
    · simpa [closestLoop] using hmin
    · simpa [closestLoop] using hfirst
  | cons v rest ih =>
    intro seen closest i hi hnan hmin hfirst
    have hilt : i < seen.length := by
      by_contra hge
      rw [List.getElem?_eq_none (Nat.le_of_not_lt hge)] at hi
      exact Option.noConfusion hi
    have hcmem : closest ∈ seen := List.getElem?_mem hi
    have hsplit : seen ++ v :: rest = (seen ++ [v]) ++ rest := by simp
    rw [hsplit] at hnan ⊢
    have hv : ops.eq (haversine ops v.VehicleLocation target)
        (haversine ops v.VehicleLocation target) = true :=
      hnan v (by simp)
    have hc : ops.eq (haversine ops closest.VehicleLocation target)
        (haversine ops closest.VehicleLocation target) = true :=
      hnan closest (by simp [hcmem])
    by_cases hlt : ops.lt (haversine ops v.VehicleLocation target)
        (haversine ops closest.VehicleLocation target) = true
    · have hloop : closestLoop ops target (v :: rest) closest
          (haversine ops closest.VehicleLocation target)
          = closestLoop ops target rest v (haversine ops v.VehicleLocation target) := by
        simp [closestLoop, hlt]
      have hnear : ∀ w ∈ seen, ops.lt (haversine ops v.VehicleLocation target)
          (haversine ops w.VehicleLocation target) = true := by
        intro w hw
        have hle := hmin w hw
        simp only [FloatOps.le, Bool.or_eq_true] at hle
        rcases hle with h | h
        · exact laws.lt_trans _ _ _ hlt h
        · exact laws.lt_of_lt_of_eq _ _ _ hlt h
      rw [hloop]
      apply ih (seen ++ [v]) v seen.length (by simp) hnan
      · intro w hw
        simp only [FloatOps.le, Bool.or_eq_true]
        rcases List.mem_append.mp hw with hw | hw
        · exact Or.inl (hnear w hw)
        · simp only [List.mem_singleton] at hw
          rw [hw]
          exact Or.inr hv
      · intro w hw
        rw [List.take_left] at hw
        exact hnear w hw
    · have hloop : closestLoop ops target (v :: rest) closest
          (haversine ops closest.VehicleLocation target)
          = closestLoop ops target rest closest
              (haversine ops closest.VehicleLocation target) := by
        simp [closestLoop, hlt]
      rw [hloop]
      apply ih (seen ++ [v]) closest i
        (by rw [List.getElem?_append_left hilt]; exact hi) hnan
      · intro w hw
        rcases List.mem_append.mp hw with hw | hw
        · exact hmin w hw
        · simp only [List.mem_singleton] at hw
          rw [hw]
          simp only [FloatOps.le, Bool.or_eq_true]
          rcases laws.trichotomy _ _ hc hv with h | h | h
          · exact Or.inl h
          · exact Or.inr h
          · exact absurd h hlt
      · intro w hw
        rw [List.take_append_of_le_length (Nat.le_of_lt hilt)] at hw
        exact hfirst w hw

/-- What `closestVehicle` returns on a non-empty list: an element at some position `i`, the
only element when there is one; and when no distance is NaN it is nowhere farther from the
target than any element and strictly nearer than every element before `i`. -/
theorem closestVehicle_spec {F : Type} (ops : FloatOps F) (laws : OrderLaws ops)
    (vehicles : List (vehicle F)) (target : location F) (hne : vehicles ≠ []) :
    ∃ (i : Nat) (closest : vehicle F),
      closestVehicle ops vehicles target = some closest ∧
      vehicles[i]? = some closest ∧
      (∀ only, vehicles = [only] → closest = only) ∧
      ((∀ w ∈ vehicles, ops.eq (haversine ops w.VehicleLocation target)
          (haversine ops w.VehicleLocation target) = true) →
        (∀ w ∈ vehicles, ops.le (haversine ops closest.VehicleLocation target)
          (haversine ops w.VehicleLocation target) = true) ∧
        (∀ w ∈ vehicles.take i, ops.lt (haversine ops closest.VehicleLocation target)
          (haversine ops w.VehicleLocation target) = true)) := by
  match vehicles, hne with
  | [only], _ =>
    refine ⟨0, only, rfl, rfl, ?_, ?_⟩
    · intro o ho
      simpa using ho
    · intro hnan
      refine ⟨?_, ?_⟩
      · intro w hw
        simp only [List.mem_singleton] at hw
        rw [hw]
        simp only [FloatOps.le, Bool.or_eq_true]
        exact Or.inr (hnan only (by simp))
      · intro w hw
        simp at hw
  | first :: second :: rest, _ =>
    by_cases hnan : ∀ w ∈ first :: second :: rest,
        ops.eq (haversine ops w.VehicleLocation target)
          (haversine ops w.VehicleLocation target) = true
    · obtain ⟨k, hk, hmin, hfirst⟩ := closestLoop_spec ops laws target (second :: rest)
        [first] first 0 rfl (by simpa using hnan)
        (by
          intro w hw
          simp only [List.mem_singleton] at hw
          rw [hw]
          simp only [FloatOps.le, Bool.or_eq_true]
          exact Or.inr (hnan first (by simp)))
        (by intro w hw; simp at hw)
      refine ⟨k, _, rfl, ?_, ?_, ?_⟩
      · simpa using hk
      · intro o ho
        simp at ho
      · intro _
        exact ⟨by simpa using hmin, by simpa using hfirst⟩
    · obtain ⟨k, hk⟩ := closestLoop_index ops target (second :: rest) [first] first
        (haversine ops first.VehicleLocation target) 0 rfl
      refine ⟨k, _, rfl, ?_, ?_, ?_⟩
      · simpa using hk
      · intro o ho
        simp at ho
      · intro h
        exact absurd h hnan

/-- C1 (amended): for a non-empty list, `closestVehicle` returns an element of the list, at
some position `i`, and for a one-element list that element whatever its distance; when no
haversine distance to the target is NaN, the distance of the returned element is `<=` that of
every element of the list and `<` that of every element before position `i` (so among
elements at the minimal distance it is the first in input order). -/
theorem closestVehicle_minimal_first {F : Type} (ops : FloatOps F) (laws : OrderLaws ops)
    (vehicles : List (vehicle F)) (target : location F) (hne : vehicles ≠ []) :
    ∃ (i : Nat) (closest : vehicle F),
      closestVehicle ops vehicles target = some closest ∧
      vehicles[i]? = some closest ∧
      (∀ only, vehicles = [only] → closest = only) ∧
      ((∀ w ∈ vehicles, ops.eq (haversine ops w.VehicleLocation target)
          (haversine ops w.VehicleLocation target) = true) →
        (∀ w ∈ vehicles, ops.le (haversine ops closest.VehicleLocation target)
          (haversine ops w.VehicleLocation target) = true) ∧
        (∀ w ∈ vehicles.take i, ops.lt (haversine ops closest.VehicleLocation target)
          (haversine ops w.VehicleLocation target) = true)) :=
  closestVehicle_spec ops laws vehicles target hne

/-- Witness of `closestVehicle_minimal_first` on the two vehicles of the spec scenario, none
of whose distances is NaN. -/
theorem closestVehicle_minimal_first_witness :
    (∀ w ∈ scenarioVehicles,
      ieeeOps.eq
        (haversine ieeeOps w.VehicleLocation
          ⟨scenarioTarget.latitude, scenarioTarget.longitude⟩)
        (haversine ieeeOps w.VehicleLocation
          ⟨scenarioTarget.latitude, scenarioTarget.longitude⟩) = true) ∧
    ∃ (i : Nat) (closest : vehicle Float64),
      closestVehicle ieeeOps scenarioVehicles
        ⟨scenarioTarget.latitude, scenarioTarget.longitude⟩ = some closest ∧
      scenarioVehicles[i]? = some closest ∧
      (∀ only, scenarioVehicles = [only] → closest = only) ∧
      ((∀ w ∈ scenarioVehicles,
          ieeeOps.eq
            (haversine ieeeOps w.VehicleLocation
              ⟨scenarioTarget.latitude, scenarioTarget.longitude⟩)
            (haversine ieeeOps w.VehicleLocation
              ⟨scenarioTarget.latitude, scenarioTarget.longitude⟩) = true) →
        (∀ w ∈ scenarioVehicles,
          ieeeOps.le
            (haversine ieeeOps closest.VehicleLocation
              ⟨scenarioTarget.latitude, scenarioTarget.longitude⟩)
            (haversine ieeeOps w.VehicleLocation
              ⟨scenarioTarget.latitude, scenarioTarget.longitude⟩) = true) ∧
        (∀ w ∈ scenarioVehicles.take i,
          ieeeOps.lt
            (haversine ieeeOps closest.VehicleLocation
              ⟨scenarioTarget.latitude, scenarioTarget.longitude⟩)
            (haversine ieeeOps w.VehicleLocation
              ⟨scenarioTarget.latitude, scenarioTarget.longitude⟩) = true)) :=
  ⟨scenario_distances_not_nan,
    closestVehicle_minimal_first ieeeOps ieeeOps_orderLaws scenarioVehicles
      ⟨scenarioTarget.latitude, scenarioTarget.longitude⟩ (by simp [scenarioVehicles])⟩

/-- C1, counterexample: with vehicle 1 at (1e308, 0), vehicle 2 at (-1e308, 0) and the target
at (-1e308, 0), the distance of vehicle 1 is NaN and that of vehicle 2 is 0; no comparison
with NaN is true, so `closestVehicle` returns vehicle 1, whose distance is not `<=` the
distance 0 of vehicle 2. -/
theorem closestVehicle_keeps_nan_first :
    closestVehicle ieeeOps farVehicles ⟨farSouth.latitude, farSouth.longitude⟩
      = some ⟨1, ⟨.fin (10 ^ 308), .fin 0⟩⟩ ∧
    haversine ieeeOps ⟨.fin (10 ^ 308), .fin 0⟩ ⟨farSouth.latitude, farSouth.longitude⟩
      = .nan ∧
    haversine ieeeOps ⟨.fin (-(10 ^ 308)), .fin 0⟩ ⟨farSouth.latitude, farSouth.longitude⟩
      = .fin 0 ∧
    ieeeOps.le
        (haversine ieeeOps ⟨.fin (10 ^ 308), .fin 0⟩ ⟨farSouth.latitude, farSouth.longitude⟩)
        (haversine ieeeOps ⟨.fin (-(10 ^ 308)), .fin 0⟩
          ⟨farSouth.latitude, farSouth.longitude⟩)
      = false := by
  refine ⟨far_closest, haversine_far_nan, haversine_far_zero, ?_⟩
  have h1 : haversine ieeeOps ⟨.fin (10 ^ 308), .fin 0⟩
      ⟨farSouth.latitude, farSouth.longitude⟩ = .nan := haversine_far_nan
  rw [h1]
  simp [FloatOps.le, ieeeOps, Float64.lt, Float64.eq]

/-! ## Geo: proofs -/

/-- Swapping the operands of the subtraction leaves the square of the half-angle sine as it
is. -/
theorem sin_half_sq_swap {F : Type} (ops : FloatOps F) (neg : F → F) (laws : SignLaws ops neg)
    (x y k t : F) :
    ops.mul (ops.sin (ops.div (ops.mul (ops.sub x y) k) t))
        (ops.sin (ops.div (ops.mul (ops.sub x y) k) t))
      = ops.mul (ops.sin (ops.div (ops.mul (ops.sub y x) k) t))
        (ops.sin (ops.div (ops.mul (ops.sub y x) k) t)) := by
  rcases laws.sub_swap x y with h | h
  · rw [h, laws.neg_mul, laws.neg_div, laws.sin_neg, laws.neg_mul_neg]
  · rw [h]

/-- The same with a factor in front. -/
theorem scaled_sin_half_sq_swap {F : Type} (ops : FloatOps F) (neg : F → F)
    (laws : SignLaws ops neg) (c x y k t : F) :
    ops.mul (ops.mul c (ops.sin (ops.div (ops.mul (ops.sub x y) k) t)))
        (ops.sin (ops.div (ops.mul (ops.sub x y) k) t))
      = ops.mul (ops.mul c (ops.sin (ops.div (ops.mul (ops.sub y x) k) t)))
        (ops.sin (ops.div (ops.mul (ops.sub y x) k) t)) := by
  rcases laws.sub_swap x y with h | h
  · rw [h, laws.neg_mul, laws.neg_div, laws.sin_neg,
      laws.mul_comm c (neg _), laws.neg_mul, laws.neg_mul_neg, laws.mul_comm _ c]
  · rw [h]

/-- C8 (amended): for all locations `a` and `b`, `haversine a b` and `haversine b a` compute
the same value, and when that value is not NaN (it `==` itself) the two results compare equal
with `==`.  The arithmetic is any implementation obeying the IEEE-754 sign laws. -/
theorem haversine_symm {F : Type} (ops : FloatOps F) (neg : F → F) (laws : SignLaws ops neg)
    (a b : location F) :
    haversine ops a b = haversine ops b a ∧
    (ops.eq (haversine ops a b) (haversine ops a b) = true →
      ops.eq (haversine ops a b) (haversine ops b a) = true) := by
  have hsame : haversine ops a b = haversine ops b a := by
    simp only [haversine]
    rw [sin_half_sq_swap ops neg laws b.Latitude a.Latitude,
      scaled_sin_half_sq_swap ops neg laws _ b.Longitude a.Longitude,
      laws.mul_comm (ops.cos (ops.mul a.Latitude ops.degToRad))]
  refine ⟨hsame, ?_⟩
  intro h
  rw [← hsame]
  exact h

/-- Witness of `haversine_symm` in the `Float64` model, between vehicle 7 and the target of
the spec scenario: the distance is not NaN and the two directions compare equal. -/
theorem haversine_symm_witness :
    SignLaws ieeeOps Float64.neg ∧
    ieeeOps.eq
        (haversine ieeeOps ⟨.fin (45501 / 1000), .fin (-73571 / 1000)⟩
          ⟨scenarioTarget.latitude, scenarioTarget.longitude⟩)
        (haversine ieeeOps ⟨scenarioTarget.latitude, scenarioTarget.longitude⟩
          ⟨.fin (45501 / 1000), .fin (-73571 / 1000)⟩) = true :=
  ⟨ieeeOps_signLaws,
    (haversine_symm ieeeOps Float64.neg ieeeOps_signLaws _ _).2
      (scenario_distances_not_nan ⟨7, ⟨.fin (45501 / 1000), .fin (-73571 / 1000)⟩⟩
        (by simp [scenarioVehicles]))⟩

/-- C8, counterexample: between (1e308, 0) and (-1e308, 0) the latitude difference overflows,
`haversine` is NaN in both directions, and the two results do not compare equal with `==`. -/
theorem haversine_nan_not_equal :
    haversine ieeeOps ⟨.fin (10 ^ 308), .fin 0⟩ ⟨.fin (-(10 ^ 308)), .fin 0⟩ = .nan ∧
    haversine ieeeOps ⟨.fin (-(10 ^ 308)), .fin 0⟩ ⟨.fin (10 ^ 308), .fin 0⟩ = .nan ∧
    ieeeOps.eq
        (haversine ieeeOps ⟨.fin (10 ^ 308), .fin 0⟩ ⟨.fin (-(10 ^ 308)), .fin 0⟩)
        (haversine ieeeOps ⟨.fin (-(10 ^ 308)), .fin 0⟩ ⟨.fin (10 ^ 308), .fin 0⟩)
      = false := by
  refine ⟨haversine_far_nan, haversine_far_nan_swapped, ?_⟩
  rw [haversine_far_nan, haversine_far_nan_swapped]
  simp [ieeeOps, Float64.eq]

/-! ## SearchLoop: general lemmas -/

/-- Running `n + m` iterations is running `n` and, if the loop is still going, `m` more. -/
theorem searchLoop_add {F : Type} (ops : FloatOps F) (searchingType : SearchType)
    (currentCoordinate : Coordinate F) (env : Env F) (n m : Nat) :
    ∀ s, searchLoop ops searchingType currentCoordinate env (n + m) s
      = match searchLoop ops searchingType currentCoordinate env n s with
        | .running next => searchLoop ops searchingType currentCoordinate env m next
        | done => done := by
  induction n with
  | zero => intro s; simp [searchLoop]
  | succ n ih =>
    intro s
    rw [Nat.succ_add]
    simp only [searchLoop]
    cases hbody : loopBody ops searchingType currentCoordinate env s with
    | running next => simpa using ih next
    | returned v d => rfl
    | panicked d => rfl
    | exited d => rfl

/-- One more iteration after `n` is the loop body applied to the state reached. -/
theorem searchLoop_running_succ {F : Type} (ops : FloatOps F)
    (searchingType : SearchType) (currentCoordinate : Coordinate F) (env : Env F) (n : Nat)
    (s next : LoopState)
    (hrun : searchLoop ops searchingType currentCoordinate env n s = .running next) (m : Nat) :
    searchLoop ops searchingType currentCoordinate env (n + m) s
      = searchLoop ops searchingType currentCoordinate env m next := by
  rw [searchLoop_add, hrun]

/-- A run that has ended keeps its outcome under more fuel. -/
theorem searchLoop_done_add {F : Type} (ops : FloatOps F)
    (searchingType : SearchType) (currentCoordinate : Coordinate F) (env : Env F) (n : Nat)
    (s : LoopState) (value : Int) (delivered : List Int)
    (hrun : searchLoop ops searchingType currentCoordinate env n s = .returned value delivered)
    (m : Nat) :
    searchLoop ops searchingType currentCoordinate env (n + m) s = .returned value delivered := by
  rw [searchLoop_add, hrun]

/-- A single iteration is the loop body. -/
theorem searchLoop_one {F : Type} (ops : FloatOps F)
    (searchingType : SearchType) (currentCoordinate : Coordinate F) (env : Env F)
    (s : LoopState) :
    searchLoop ops searchingType currentCoordinate env 1 s
      = loopBody ops searchingType currentCoordinate env s := by
  simp only [searchLoop]
  cases loopBody ops searchingType currentCoordinate env s <;> rfl

/-- The loop body sends at most the value it returns. -/
theorem loopBody_sentFrom {F : Type} (ops : FloatOps F)
    (searchingType : SearchType) (currentCoordinate : Coordinate F) (env : Env F)
    (s : LoopState) :
    (loopBody ops searchingType currentCoordinate env s).SentFrom s.delivered := by
  unfold loopBody
  split
  · simp [Outcome.SentFrom]
  · split
    · simp [Outcome.SentFrom]
    · unfold fetchBranch
      split
      · simp [Outcome.SentFrom]
      · simp [Outcome.SentFrom]
      · split <;> simp [Outcome.SentFrom]

/-- Over a whole run, nothing is sent before the run ends, and a run that returns has sent
exactly the value it returns. -/
theorem searchLoop_sentFrom {F : Type} (ops : FloatOps F)
    (searchingType : SearchType) (currentCoordinate : Coordinate F) (env : Env F) (n : Nat) :
    ∀ s, (searchLoop ops searchingType currentCoordinate env n s).SentFrom s.delivered := by
  induction n with
  | zero => intro s; simp [searchLoop, Outcome.SentFrom]
  | succ n ih =>
    intro s
    have hbody := loopBody_sentFrom ops searchingType currentCoordinate env s
    simp only [searchLoop]
    cases hb : loopBody ops searchingType currentCoordinate env s with
    | running next =>
      rw [hb] at hbody
      simp only [Outcome.SentFrom] at hbody
      simpa [hbody] using ih next
    | returned v d => rw [hb] at hbody; exact hbody
    | panicked d => rw [hb] at hbody; exact hbody
    | exited d => rw [hb] at hbody; exact hbody

/-- A state reached by `searchCar` while it is still looping has sent nothing. -/
theorem searchCar_running_delivered {F : Type} (ops : FloatOps F) (n : Nat)
    (searchingType : SearchType) (currentCoordinate : Coordinate F) (env : Env F)
    (s : LoopState) (hrun : searchCar ops n searchingType currentCoordinate env = .running s) :
    s.delivered = [] := by
  have h := searchLoop_sentFrom ops searchingType currentCoordinate env n initialState
  unfold searchCar at hrun
  rw [hrun] at h
  simpa [Outcome.SentFrom, initialState] using h

/-- The station loop adds to `nbCarFound` the number of counted stations. -/
theorem stationCount_eq (stations : List station) :
    ∀ nbCarFound : Int, stationCount stations nbCarFound
      = nbCarFound + ((stations.filter station.counted).length : Int) := by
  induction stations with
  | nil => intro n; simp [stationCount]
  | cons st rest ih =>
    intro n
    by_cases hc : st.counted = true
    · have hc2 : (st.SatisfiesFilters && st.RecommendedVehicleId.isSome) = true := hc
      simp only [stationCount, hc2, if_true, ih, List.filter_cons, hc, List.length_cons]
      push_cast
      ring
    · have hc2 : ¬ (st.SatisfiesFilters && st.RecommendedVehicleId.isSome) = true := hc
      simp only [stationCount, hc2, ih, List.filter_cons, hc]
      simp

/-! ## Station mode -/

/-- C3: in Station mode, when the loop reaches a fetch that returns a station list, the result
computed in that iteration is N, the number of stations whose `SatisfiesFilters` is true and
whose recommended vehicle id is present, and when N > 0 the search ends in that iteration,
sending N on the channel (its only value) and returning N. -/
theorem station_search_reports_count {F : Type} (ops : FloatOps F) (n : Nat)
    (currentCoordinate : Coordinate F) (env : Env F) (s : LoopState) (stations : List station)
    (hrun : searchCar ops n .SearchingStation currentCoordinate env = .running s)
    (hctx : (s.ctxCancelled || env.ctxDone s.iteration) = false)
    (hms : s.msSecondeToSleep = 0)
    (hreply : env.stationReplies s.fetches = .response 200 (some ⟨stations⟩)) :
    fetchAndCount ops .SearchingStation currentCoordinate env s.fetches
      = .value none ((stations.filter station.counted).length : Int) ∧
    (0 < (stations.filter station.counted).length →
      searchCar ops (n + 1) .SearchingStation currentCoordinate env
        = .returned ((stations.filter station.counted).length : Int)
            [((stations.filter station.counted).length : Int)]) := by
  have hcount : fetchAndCount ops .SearchingStation currentCoordinate env s.fetches
      = .value none ((stations.filter station.counted).length : Int) := by
    simp [fetchAndCount, hreply, apiCall, stationCount_eq, selfCancel]
  refine ⟨hcount, ?_⟩
  intro hpos
  have hd := searchCar_running_delivered ops n .SearchingStation currentCoordinate env s hrun
  unfold searchCar at hrun ⊢
  rw [searchLoop_running_succ ops _ _ _ n _ s hrun 1, searchLoop_one]
  have hposInt : (0 : Int) < ((stations.filter station.counted).length : Int) := by
    exact_mod_cast hpos
  simp [loopBody, hctx, hms, fetchBranch, hcount, hposInt, hd]

/-- Witness of `station_search_reports_count`: the first fetch returns four stations of which
two are counted. -/
theorem station_search_reports_count_witness :
    fetchAndCount planarOps .SearchingStation montreal
        (constEnv (fun _ => false) .transportError (.response 200 (some ⟨sampleStations⟩))) 0
      = .value none 2 ∧
    searchCar planarOps 1 .SearchingStation montreal
        (constEnv (fun _ => false) .transportError (.response 200 (some ⟨sampleStations⟩)))
      = .returned 2 [2] := by
  have h := station_search_reports_count planarOps 0 montreal
    (constEnv (fun _ => false) .transportError (.response 200 (some ⟨sampleStations⟩)))
    initialState sampleStations rfl rfl rfl rfl
  exact ⟨h.1, h.2 (by decide)⟩

/-! ## Fetch failure -/

/-- When `apiCall` returns an error the response variable keeps its zero value, so the
computed result is 0, and `cancelCtxFunc` is called: unless it is nil, the iteration reaches
its result test with that error and 0. -/
theorem fetchAndCount_of_fetchErr {F : Type} (ops : FloatOps F)
    (searchingType : SearchType) (currentCoordinate : Coordinate F) (env : Env F) (k : Nat)
    (code : Nat) (herr : fetchErr searchingType env k = some code)
    (hfunc : env.cancelCtxFunc ≠ .nil) :
    fetchAndCount ops searchingType currentCoordinate env k = .value (some code) 0 := by
  cases searchingType with
  | SearchingFlex =>
    simp only [fetchErr] at herr
    simp only [fetchAndCount]
    cases hreply : env.flexReplies k with
    | transportError => simp [hreply, apiCall] at herr
    | response statusCode decoded =>
      by_cases h200 : statusCode = 200
      · cases decoded <;> simp [hreply, apiCall, h200] at herr
      · simp [hreply, apiCall, h200] at herr
        subst herr
        simp [apiCall, h200, flexCount, selfCancel, hfunc]
  | SearchingStation =>
    simp only [fetchErr] at herr
    simp only [fetchAndCount]
    cases hreply : env.stationReplies k with
    | transportError => simp [hreply, apiCall] at herr
    | response statusCode decoded =>
      by_cases h200 : statusCode = 200
      · cases decoded <;> simp [hreply, apiCall, h200] at herr
      · simp [hreply, apiCall, h200] at herr
        subst herr
        simp [apiCall, h200, stationCount, selfCancel, hfunc]

/-- C4 (amended): in either mode, when the loop reaches a fetch, `apiCall` returns an error
(a status other than 200) and `cancelCtxFunc` is the cancel function of `ctx`, the iteration
cancels `ctx` and keeps looping, and the next iteration ends the search: -1 is sent on the
channel (its only value) and returned. -/
theorem fetch_error_ends_search {F : Type} (ops : FloatOps F) (n : Nat)
    (searchingType : SearchType) (currentCoordinate : Coordinate F) (env : Env F)
    (s : LoopState) (code : Nat)
    (hrun : searchCar ops n searchingType currentCoordinate env = .running s)
    (hctx : (s.ctxCancelled || env.ctxDone s.iteration) = false)
    (hms : s.msSecondeToSleep = 0)
    (herr : fetchErr searchingType env s.fetches = some code)
    (hfunc : env.cancelCtxFunc = .ofCtx) :
    (∃ next, searchCar ops (n + 1) searchingType currentCoordinate env = .running next ∧
      next.ctxCancelled = true) ∧
    ∀ m, searchCar ops (n + 2 + m) searchingType currentCoordinate env
      = .returned (-1) [-1] := by
  have hcomp := fetchAndCount_of_fetchErr ops searchingType currentCoordinate env s.fetches
    code herr (by rw [hfunc]; exact fun h => CancelFunc.noConfusion h)
  have hd := searchCar_running_delivered ops n searchingType currentCoordinate env s hrun
  unfold searchCar at hrun ⊢
  have hstep : searchLoop ops searchingType currentCoordinate env (n + 1) initialState
      = .running
          { msSecondeToSleep := 1500
            iteration := s.iteration + 1
            fetches := s.fetches + 1
            ctxCancelled := true
            delivered := [] } := by
    rw [searchLoop_running_succ ops _ _ _ n _ s hrun 1, searchLoop_one]
    simp [loopBody, hctx, hms, fetchBranch, hcomp, hd, hfunc]
  refine ⟨⟨_, hstep, rfl⟩, ?_⟩
  intro m
  have hnext : searchLoop ops searchingType currentCoordinate env (n + 1 + 1) initialState
      = .returned (-1) [-1] := by
    rw [searchLoop_running_succ ops _ _ _ (n + 1) _ _ hstep 1, searchLoop_one]
    simp [loopBody]
  exact searchLoop_done_add ops _ _ _ (n + 2) _ _ _ hnext m

/-- Witness of `fetch_error_ends_search`: the first fetch of a Flex search gets status 503
and `cancelCtxFunc` is the cancel function of `ctx`. -/
theorem fetch_error_ends_search_witness :
    (∃ next, searchCar planarOps 1 .SearchingFlex montreal
        (constEnv (fun _ => false) (.response 503 none) .transportError) = .running next ∧
      next.ctxCancelled = true) ∧
    ∀ m, searchCar planarOps (0 + 2 + m) .SearchingFlex montreal
        (constEnv (fun _ => false) (.response 503 none) .transportError)
      = .returned (-1) [-1] :=
  fetch_error_ends_search planarOps 0 .SearchingFlex montreal
    (constEnv (fun _ => false) (.response 503 none) .transportError)
    initialState 503 rfl rfl rfl rfl rfl

/-- C4, counterexample: (1) through `SearchFlexCarForGoRoutine` with a `cancelCtxFunc` that
is not the cancel function of `ctx`, a fetch that gets status 503 does not end the search:
after the next iteration it is still looping with nothing sent; (2) a fetch that fails in
transport ends the process in `log.Fatal`, and nothing is sent. -/
theorem fetch_failure_without_sentinel :
    fetchErr .SearchingFlex
        ((constEnv (fun _ => false) (.response 503 none) .transportError).withCancelFunc
          .other) 0 = some 503 ∧
    SearchFlexCarForGoRoutine planarOps 2 montreal
        ((constEnv (fun _ => false) (.response 503 none) .transportError).withCancelFunc
          .other)
      = .running
          { msSecondeToSleep := 1499
            iteration := 2
            fetches := 1
            ctxCancelled := false
            delivered := [] } ∧
    searchCar planarOps 1 .SearchingStation montreal
        (constEnv (fun _ => false) .transportError .transportError)
      = .exited [] := by
  refine ⟨rfl, rfl, rfl⟩

/-! ## Flex mode -/

/-- C2 (amended): in Flex mode, when the loop reaches a fetch that succeeds with a non-empty
vehicle list none of whose haversine distances to the target is NaN, the list has a closest
vehicle (its distance `<=` that of every vehicle, `<` that of every vehicle before it); if
`TotalNbVehicles` and that vehicle's id are both positive, that iteration ends the search,
sending the id on the channel (its only value) and returning it; and whatever the iteration
reports is that id. -/
theorem flex_search_reports_closest_id {F : Type} (ops : FloatOps F) (laws : OrderLaws ops)
    (n : Nat) (currentCoordinate : Coordinate F) (env : Env F) (s : LoopState) (total : Int)
    (vehicles : List (vehicle F))
    (hrun : searchCar ops n .SearchingFlex currentCoordinate env = .running s)
    (hctx : (s.ctxCancelled || env.ctxDone s.iteration) = false)
    (hms : s.msSecondeToSleep = 0)
    (hreply : env.flexReplies s.fetches = .response 200 (some ⟨total, vehicles⟩))
    (hne : vehicles ≠ [])
    (hnan : ∀ w ∈ vehicles,
      ops.eq
        (haversine ops w.VehicleLocation
          ⟨currentCoordinate.latitude, currentCoordinate.longitude⟩)
        (haversine ops w.VehicleLocation
          ⟨currentCoordinate.latitude, currentCoordinate.longitude⟩) = true) :
    ∃ (i : Nat) (closest : vehicle F),
      vehicles[i]? = some closest ∧
      (∀ w ∈ vehicles,
        ops.le
          (haversine ops closest.VehicleLocation
            ⟨currentCoordinate.latitude, currentCoordinate.longitude⟩)
          (haversine ops w.VehicleLocation
            ⟨currentCoordinate.latitude, currentCoordinate.longitude⟩) = true) ∧
      (∀ w ∈ vehicles.take i,
        ops.lt
          (haversine ops closest.VehicleLocation
            ⟨currentCoordinate.latitude, currentCoordinate.longitude⟩)
          (haversine ops w.VehicleLocation
            ⟨currentCoordinate.latitude, currentCoordinate.longitude⟩) = true) ∧
      (0 < total → 0 < closest.VehicleId →
        searchCar ops (n + 1) .SearchingFlex currentCoordinate env
          = .returned closest.VehicleId [closest.VehicleId]) ∧
      (∀ value delivered,
        searchCar ops (n + 1) .SearchingFlex currentCoordinate env = .returned value delivered →
        value = closest.VehicleId ∧ delivered = [value]) := by
  obtain ⟨i, closest, hcv, hi, _, hcond⟩ := closestVehicle_spec ops laws vehicles
    ⟨currentCoordinate.latitude, currentCoordinate.longitude⟩ hne
  obtain ⟨hmin, hfirst⟩ := hcond hnan
  have hd := searchCar_running_delivered ops n .SearchingFlex currentCoordinate env s hrun
  have hstep : searchCar ops (n + 1) .SearchingFlex currentCoordinate env
      = loopBody ops .SearchingFlex currentCoordinate env s := by
    unfold searchCar at hrun ⊢
    rw [searchLoop_running_succ ops _ _ _ n _ s hrun 1, searchLoop_one]
  refine ⟨i, closest, hi, hmin, hfirst, ?_, ?_⟩
  · intro htotal hid
    rw [hstep]
    simp [loopBody, hctx, hms, fetchBranch, fetchAndCount, hreply, apiCall, flexCount, htotal,
      hcv, hid, hd, selfCancel]
  · intro value delivered hret
    rw [hstep] at hret
    by_cases htotal : 0 < total
    · by_cases hid : 0 < closest.VehicleId
      · simp [loopBody, hctx, hms, fetchBranch, fetchAndCount, hreply, apiCall, flexCount,
          htotal, hcv, hid, hd, selfCancel] at hret
        obtain ⟨hv, hdel⟩ := hret
        subst hv
        exact ⟨rfl, hdel.symm⟩
      · simp [loopBody, hctx, hms, fetchBranch, fetchAndCount, hreply, apiCall, flexCount,
          htotal, hcv, hid, hd, selfCancel] at hret
    · simp [loopBody, hctx, hms, fetchBranch, fetchAndCount, hreply, apiCall, flexCount,
        htotal, hd, selfCancel] at hret

/-- On the spec scenario (total 2, vehicles 7 and 9, target (45.50, -73.57)) the first
iteration of a Flex search returns 7 and sends 7. -/
theorem scenario_search :
    searchCar ieeeOps 1 .SearchingFlex scenarioTarget
        (flexEnv (.response 200 (some ⟨2, scenarioVehicles⟩)))
      = .returned 7 [7] := by
  simp [searchCar, searchLoop, loopBody, initialState, flexEnv, fetchBranch, fetchAndCount,
    apiCall, flexCount, scenario_closest, selfCancel]

/-- Witness of `flex_search_reports_closest_id` on the spec scenario: total 2, vehicles 7
and 9, first fetch; the reported result is 7. -/
theorem flex_search_reports_closest_id_witness :
    searchCar ieeeOps 1 .SearchingFlex scenarioTarget
        (flexEnv (.response 200 (some ⟨2, scenarioVehicles⟩)))
      = .returned 7 [7] ∧
    ∃ (i : Nat) (closest : vehicle Float64),
      scenarioVehicles[i]? = some closest ∧
      (∀ w ∈ scenarioVehicles,
        ieeeOps.le
          (haversine ieeeOps closest.VehicleLocation
            ⟨scenarioTarget.latitude, scenarioTarget.longitude⟩)
          (haversine ieeeOps w.VehicleLocation
            ⟨scenarioTarget.latitude, scenarioTarget.longitude⟩) = true) ∧
      (∀ w ∈ scenarioVehicles.take i,
        ieeeOps.lt
          (haversine ieeeOps closest.VehicleLocation
            ⟨scenarioTarget.latitude, scenarioTarget.longitude⟩)
          (haversine ieeeOps w.VehicleLocation
            ⟨scenarioTarget.latitude, scenarioTarget.longitude⟩) = true) ∧
      ((0 : Int) < 2 → 0 < closest.VehicleId →
        searchCar ieeeOps (0 + 1) .SearchingFlex scenarioTarget
            (flexEnv (.response 200 (some ⟨2, scenarioVehicles⟩)))
          = .returned closest.VehicleId [closest.VehicleId]) ∧
      (∀ value delivered,
        searchCar ieeeOps (0 + 1) .SearchingFlex scenarioTarget
            (flexEnv (.response 200 (some ⟨2, scenarioVehicles⟩)))
          = .returned value delivered →
        value = closest.VehicleId ∧ delivered = [value]) :=
  ⟨scenario_search,
    flex_search_reports_closest_id ieeeOps ieeeOps_orderLaws 0 scenarioTarget
      (flexEnv (.response 200 (some ⟨2, scenarioVehicles⟩)))
      initialState 2 scenarioVehicles rfl rfl rfl rfl (by simp [scenarioVehicles])
      scenario_distances_not_nan⟩

/-- C2, counterexample: (1) a successful Flex fetch with `TotalNbVehicles = 0` and the
non-empty vehicle list of the spec scenario reports nothing: after the iteration the search
is still looping with an empty channel, waiting 1500 slices; (2) the same happens with
`TotalNbVehicles = 1` and a single vehicle whose id is 0; (3) with vehicle 1 at (1e308, 0),
vehicle 2 at (-1e308, 0) and the target at (-1e308, 0), the search reports 1 although
vehicle 2 is at distance 0 and the distance of vehicle 1 is NaN. -/
theorem flex_nonempty_list_not_reported :
    sampleVehicles ≠ [] ∧
    searchCar planarOps 1 .SearchingFlex montreal
        (constEnv (fun _ => false) (.response 200 (some ⟨0, sampleVehicles⟩)) .transportError)
      = .running
          { msSecondeToSleep := 1500
            iteration := 1
            fetches := 1
            ctxCancelled := false
            delivered := [] } ∧
    searchCar planarOps 1 .SearchingFlex montreal
        (constEnv (fun _ => false)
          (.response 200 (some ⟨1, [⟨0, ⟨45501 / 1000, -73571 / 1000⟩⟩]⟩)) .transportError)
      = .running
          { msSecondeToSleep := 1500
            iteration := 1
            fetches := 1
            ctxCancelled := false
            delivered := [] } ∧
    searchCar ieeeOps 1 .SearchingFlex farSouth (flexEnv (.response 200 (some ⟨2, farVehicles⟩)))
      = .returned 1 [1] ∧
    haversine ieeeOps ⟨.fin (10 ^ 308), .fin 0⟩ ⟨farSouth.latitude, farSouth.longitude⟩
      = .nan ∧
    haversine ieeeOps ⟨.fin (-(10 ^ 308)), .fin 0⟩ ⟨farSouth.latitude, farSouth.longitude⟩
      = .fin 0 := by
  refine ⟨by simp [sampleVehicles], ?_, ?_, ?_, haversine_far_nan, haversine_far_zero⟩
  · rfl
  · rfl
  · simp [searchCar, searchLoop, loopBody, initialState, flexEnv, fetchBranch, fetchAndCount,
      apiCall, flexCount, far_closest, selfCancel]

/-! ## Cancellation and waiting -/

/-- While `msSecondeToSleep` is positive and `ctx` is not done, each iteration only checks the
cancellation signal and counts one slice down: `k` such iterations leave the loop running with
`k` fewer slices to wait, no fetch made and nothing sent. -/
theorem searchLoop_wait_slices {F : Type} (ops : FloatOps F)
    (searchingType : SearchType) (currentCoordinate : Coordinate F) (env : Env F) (k : Nat) :
    ∀ s : LoopState, k ≤ s.msSecondeToSleep → s.ctxCancelled = false →
      (∀ j, j < k → env.ctxDone (s.iteration + j) = false) →
      searchLoop ops searchingType currentCoordinate env k s
        = .running
            { s with msSecondeToSleep := s.msSecondeToSleep - k, iteration := s.iteration + k } := by
  induction k with
  | zero => intro s _ _ _; rfl
  | succ k ih =>
    intro s hk hc hctx
    have h0 : env.ctxDone s.iteration = false := by simpa using hctx 0 (Nat.succ_pos k)
    have hpos : 0 < s.msSecondeToSleep := Nat.lt_of_lt_of_le (Nat.succ_pos k) hk
    have hbody : loopBody ops searchingType currentCoordinate env s
        = .running
            { s with msSecondeToSleep := s.msSecondeToSleep - 1, iteration := s.iteration + 1 } := by
      simp [loopBody, hc, h0, hpos]
    simp only [searchLoop, hbody]
    have hih := ih
      { s with msSecondeToSleep := s.msSecondeToSleep - 1, iteration := s.iteration + 1 }
      (by show k ≤ s.msSecondeToSleep - 1; omega) hc
      (by
        intro j hj
        show env.ctxDone (s.iteration + 1 + j) = false
        have hj1 := hctx (j + 1) (by omega)
        rwa [Nat.add_assoc, Nat.add_comm 1 j])
    rw [hih]
    simp only [Nat.sub_sub, Nat.add_assoc, Nat.add_comm 1 k]

/-- C5 (amended): if the cancellation signal is set before the first cancellation check, or
is set later during the first iteration and that iteration's fetch computed a result that is
not greater than zero, then the search has ended after at most two iterations, -1 is returned
and the channel has received exactly that one value. -/
theorem early_cancel_reports_sentinel {F : Type} (ops : FloatOps F)
    (searchingType : SearchType) (currentCoordinate : Coordinate F) (env : Env F)
    (hcancel : env.ctxDone 0 = true ∨
      (env.ctxDone 1 = true ∧
        ∃ err r, fetchAndCount ops searchingType currentCoordinate env 0 = .value err r ∧
          r ≤ 0)) :
    ∀ m, searchCar ops (2 + m) searchingType currentCoordinate env = .returned (-1) [-1] := by
  intro m
  unfold searchCar
  by_cases h0 : env.ctxDone 0 = true
  · have h1 : searchLoop ops searchingType currentCoordinate env 1 initialState
        = .returned (-1) [-1] := by
      rw [searchLoop_one]
      simp [loopBody, initialState, h0]
    have := searchLoop_done_add ops _ _ _ 1 _ _ _ h1 (1 + m)
    rw [← Nat.add_assoc] at this
    exact this
  · rcases hcancel with h | ⟨hc1, err, r, hcomp, hr⟩
    · exact absurd h h0
    · have hnot : ¬ (0 < r) := not_lt.mpr hr
      have h1 : searchLoop ops searchingType currentCoordinate env 1 initialState
          = .running
              { msSecondeToSleep := 1500
                iteration := 1
                fetches := 1
                ctxCancelled := err.isSome && decide (env.cancelCtxFunc = .ofCtx)
                delivered := [] } := by
        rw [searchLoop_one]
        simp [loopBody, initialState, h0, fetchBranch, hcomp, hnot]
      have h2 : searchLoop ops searchingType currentCoordinate env (1 + 1) initialState
          = .returned (-1) [-1] := by
        rw [searchLoop_running_succ ops _ _ _ 1 _ _ h1 1, searchLoop_one]
        simp [loopBody, hc1]
      exact searchLoop_done_add ops _ _ _ 2 _ _ _ h2 m

/-- Witness of `early_cancel_reports_sentinel`: a Station search whose context is already
cancelled when it starts. -/
theorem early_cancel_reports_sentinel_witness :
    (constEnv (fun _ => true) .transportError
      (.response 200 (some ⟨sampleStations⟩))).ctxDone 0 = true ∧
    searchCar planarOps (2 + 0) .SearchingStation montreal
        (constEnv (fun _ => true) .transportError (.response 200 (some ⟨sampleStations⟩)))
      = .returned (-1) [-1] :=
  ⟨rfl, early_cancel_reports_sentinel planarOps .SearchingStation montreal
    (constEnv (fun _ => true) .transportError (.response 200 (some ⟨sampleStations⟩)))
    (Or.inl rfl) 0⟩

/-- C5, counterexample: the context is not cancelled at the first check and is cancelled
during the first iteration (it is done at the second check); the first fetch of a Station
search finds two stations, so the search returns 2 and sends 2, not -1. -/
theorem cancel_during_first_fetch_reports_found :
    (fun i : Nat => decide (1 ≤ i)) 0 = false ∧
    (fun i : Nat => decide (1 ≤ i)) 1 = true ∧
    searchCar planarOps 1 .SearchingStation montreal
        (constEnv (fun i => decide (1 ≤ i)) .transportError
          (.response 200 (some ⟨sampleStations⟩)))
      = .returned 2 [2] := by
  refine ⟨rfl, rfl, ?_⟩
  rfl

/-- C9: when the loop reaches a fetch that returns no error and computes a result not
greater than zero, the search keeps looping with nothing sent and 1500 wait slices ahead;
as long as no cancellation is seen, each further iteration is one slice (no fetch, nothing
sent, one slice fewer); a cancellation seen at the check of any slice, or at the check before
the next fetch, ends the search with -1; and if none is seen through all these checks, the
iteration after the 1500 slices performs the next fetch. -/
theorem nonpositive_result_waits_then_fetches {F : Type} (ops : FloatOps F)
    (n : Nat) (searchingType : SearchType) (currentCoordinate : Coordinate F) (env : Env F)
    (s : LoopState) (r : Int)
    (hrun : searchCar ops n searchingType currentCoordinate env = .running s)
    (hctx : (s.ctxCancelled || env.ctxDone s.iteration) = false)
    (hms : s.msSecondeToSleep = 0)
    (hcomp : fetchAndCount ops searchingType currentCoordinate env s.fetches = .value none r)
    (hr : r ≤ 0) :
    (∀ k, k ≤ 1500 → (∀ j, j < k → env.ctxDone (s.iteration + 1 + j) = false) →
      searchCar ops (n + 1 + k) searchingType currentCoordinate env
        = .running
            { msSecondeToSleep := 1500 - k
              iteration := s.iteration + 1 + k
              fetches := s.fetches + 1
              ctxCancelled := false
              delivered := [] }) ∧
    (∀ k, k ≤ 1500 → (∀ j, j < k → env.ctxDone (s.iteration + 1 + j) = false) →
      env.ctxDone (s.iteration + 1 + k) = true →
      ∀ m, searchCar ops (n + 1 + k + 1 + m) searchingType currentCoordinate env
        = .returned (-1) [-1]) ∧
    ((∀ j, j ≤ 1500 → env.ctxDone (s.iteration + 1 + j) = false) →
      searchCar ops (n + 1 + 1500 + 1) searchingType currentCoordinate env
        = fetchBranch ops searchingType currentCoordinate env
            { msSecondeToSleep := 0
              iteration := s.iteration + 1 + 1500
              fetches := s.fetches + 1
              ctxCancelled := false
              delivered := [] }) := by
  have hd := searchCar_running_delivered ops n searchingType currentCoordinate env s hrun
  have hnot : ¬ (0 < r) := not_lt.mpr hr
  have hcan : s.ctxCancelled = false := by
    cases hsc : s.ctxCancelled
    · rfl
    · rw [hsc] at hctx; simp at hctx
  unfold searchCar at hrun ⊢
  have hstep : searchLoop ops searchingType currentCoordinate env (n + 1) initialState
      = .running
          { msSecondeToSleep := 1500
            iteration := s.iteration + 1
            fetches := s.fetches + 1
            ctxCancelled := false
            delivered := [] } := by
    rw [searchLoop_running_succ ops _ _ _ n _ s hrun 1, searchLoop_one]
    have hquiet0 : env.ctxDone s.iteration = false := by simpa [hcan] using hctx
    simp [loopBody, hquiet0, hms, fetchBranch, hcomp, hnot, hd, hcan]
  have hslices : ∀ k, k ≤ 1500 →
      (∀ j, j < k → env.ctxDone (s.iteration + 1 + j) = false) →
      searchLoop ops searchingType currentCoordinate env (n + 1 + k) initialState
        = .running
            { msSecondeToSleep := 1500 - k
              iteration := s.iteration + 1 + k
              fetches := s.fetches + 1
              ctxCancelled := false
              delivered := [] } := by
    intro k hk hquiet
    rw [searchLoop_running_succ ops _ _ _ (n + 1) _ _ hstep k,
      searchLoop_wait_slices ops _ _ _ k _ hk rfl hquiet]
  refine ⟨hslices, ?_, ?_⟩
  · intro k hk hquiet hdone m
    have hend : searchLoop ops searchingType currentCoordinate env (n + 1 + k + 1) initialState
        = .returned (-1) [-1] := by
      rw [searchLoop_running_succ ops _ _ _ (n + 1 + k) _ _ (hslices k hk hquiet) 1,
        searchLoop_one]
      simp [loopBody, hdone]
    exact searchLoop_done_add ops _ _ _ _ _ _ _ hend m
  · intro hquiet
    rw [searchLoop_running_succ ops _ _ _ (n + 1 + 1500) _ _
      (hslices 1500 (Nat.le_refl _) (fun j hj => hquiet j (Nat.le_of_lt hj))) 1, searchLoop_one]
    simp [loopBody, hquiet 1500 (Nat.le_refl _)]

/-- Witness of `nonpositive_result_waits_then_fetches`: every Flex fetch succeeds with
`TotalNbVehicles = 0` and no vehicle, and nobody cancels; after the first iteration the search
waits, and iteration 1502 makes the second fetch. -/
theorem nonpositive_result_waits_then_fetches_witness :
    searchCar planarOps (0 + 1 + 0) .SearchingFlex montreal
        (constEnv (fun _ => false) (.response 200 (some ⟨0, []⟩)) .transportError)
      = .running
          { msSecondeToSleep := 1500 - 0
            iteration := 0 + 1 + 0
            fetches := 0 + 1
            ctxCancelled := false
            delivered := [] } ∧
    searchCar planarOps (0 + 1 + 1500 + 1) .SearchingFlex montreal
        (constEnv (fun _ => false) (.response 200 (some ⟨0, []⟩)) .transportError)
      = fetchBranch planarOps .SearchingFlex montreal
          (constEnv (fun _ => false) (.response 200 (some ⟨0, []⟩)) .transportError)
          { msSecondeToSleep := 0
            iteration := 0 + 1 + 1500
            fetches := 0 + 1
            ctxCancelled := false
            delivered := [] } :=
  have h := nonpositive_result_waits_then_fetches planarOps 0 .SearchingFlex montreal
    (constEnv (fun _ => false) (.response 200 (some ⟨0, []⟩)) .transportError)
    initialState 0 rfl rfl rfl rfl (Int.le_refl 0)
  ⟨h.1 0 (Nat.zero_le _) (fun _ _ => rfl), h.2.2 (fun _ _ => rfl)⟩

/-! ## One value per run -/

/-- C6 (amended): for every run that returns through `searchCar`, `SearchStationCar` or
`SearchFlexCar`, and every run that returns through `SearchStationCarForGoRoutine` or
`SearchFlexCarForGoRoutine` without a panic in the search body, exactly one value was sent on
the channel and it is the returned integer. -/
theorem returned_value_sent_once {F : Type} (ops : FloatOps F) (fuel : Nat)
    (currentCoordinate : Coordinate F) (env : Env F) (value : Int) (delivered : List Int)
    (hret :
      (∃ searchingType,
        searchCar ops fuel searchingType currentCoordinate env = .returned value delivered) ∨
      SearchStationCar ops fuel currentCoordinate env = .returned value delivered ∨
      SearchFlexCar ops fuel currentCoordinate env = .returned value delivered ∨
      (SearchStationCarForGoRoutine ops fuel currentCoordinate env = .returned value delivered ∧
        ∀ d, searchCar ops fuel .SearchingStation currentCoordinate env ≠ .panicked d) ∨
      (SearchFlexCarForGoRoutine ops fuel currentCoordinate env = .returned value delivered ∧
        ∀ d, searchCar ops fuel .SearchingFlex currentCoordinate env ≠ .panicked d)) :
    delivered = [value] := by
  have key : ∀ (searchingType : SearchType) (e : Env F),
      searchCar ops fuel searchingType currentCoordinate e = .returned value delivered →
      delivered = [value] := by
    intro searchingType e h
    have hs := searchLoop_sentFrom ops searchingType currentCoordinate e fuel initialState
    unfold searchCar at h
    rw [h] at hs
    simpa [Outcome.SentFrom, initialState] using hs
  have through : ∀ o : Outcome, recoverBoundary o = .returned value delivered →
      (∀ d, o ≠ .panicked d) → o = .returned value delivered := by
    intro o ho hnp
    cases o with
    | panicked d => exact absurd rfl (hnp d)
    | running st => exact ho
    | returned v d => exact ho
    | exited d => exact ho
  rcases hret with ⟨searchingType, h⟩ | h | h | ⟨h, hnp⟩ | ⟨h, hnp⟩
  · exact key searchingType env h
  · exact key .SearchingStation (ownContext env) h
  · exact key .SearchingFlex (ownContext env) h
  · exact key .SearchingStation env (through _ h hnp)
  · exact key .SearchingFlex env (through _ h hnp)

/-- Witness of `returned_value_sent_once`: a Station search through the goroutine entry
point that finds two stations on its first fetch. -/
theorem returned_value_sent_once_witness :
    SearchStationCarForGoRoutine planarOps 1 montreal
        (constEnv (fun _ => false) .transportError (.response 200 (some ⟨sampleStations⟩)))
      = .returned 2 [2] ∧
    ([2] : List Int) = [2] :=
  ⟨rfl, returned_value_sent_once planarOps 1 montreal
    (constEnv (fun _ => false) .transportError (.response 200 (some ⟨sampleStations⟩))) 2 [2]
    (Or.inr (Or.inr (Or.inr (Or.inl ⟨rfl, fun _ h => Outcome.noConfusion h⟩))))⟩

/-- C6, counterexample: through `SearchFlexCarForGoRoutine`, when the first fetch succeeds with
`TotalNbVehicles = 1` and an empty vehicle list, the body panics and is recovered: -1 is
sent on the channel while the function returns 0. -/
theorem recovered_run_returns_zero_sends_sentinel :
    SearchFlexCarForGoRoutine planarOps 1 montreal
        (constEnv (fun _ => false) (.response 200 (some ⟨1, []⟩)) .transportError)
      = .returned 0 [-1] := by
  rfl

/-! ## Fault containment -/

/-- C7: through `SearchStationCarForGoRoutine` and `SearchFlexCarForGoRoutine`, a run whose
search body panics ends with the panic recovered at the entry point, and the channel has
received exactly one value, -1. -/
theorem goroutine_panic_sends_sentinel_once {F : Type} (ops : FloatOps F)
    (fuel : Nat) (currentCoordinate : Coordinate F) (env : Env F) (out : Outcome)
    (hfault :
      (∃ d, searchCar ops fuel .SearchingStation currentCoordinate env = .panicked d ∧
        out = SearchStationCarForGoRoutine ops fuel currentCoordinate env) ∨
      (∃ d, searchCar ops fuel .SearchingFlex currentCoordinate env = .panicked d ∧
        out = SearchFlexCarForGoRoutine ops fuel currentCoordinate env)) :
    out = .returned 0 [-1] := by
  have key : ∀ (searchingType : SearchType) (d : List Int),
      searchCar ops fuel searchingType currentCoordinate env = .panicked d → d = [] := by
    intro searchingType d h
    have hs := searchLoop_sentFrom ops searchingType currentCoordinate env fuel initialState
    unfold searchCar at h
    rw [h] at hs
    simpa [Outcome.SentFrom, initialState] using hs
  rcases hfault with ⟨d, hp, hout⟩ | ⟨d, hp, hout⟩
  · have hd := key _ d hp
    subst hd
    rw [hout, SearchStationCarForGoRoutine, hp]
    rfl
  · have hd := key _ d hp
    subst hd
    rw [hout, SearchFlexCarForGoRoutine, hp]
    rfl

/-- Witness of `goroutine_panic_sends_sentinel_once` at both entry points: a Station search
whose first fetch gets status 503 and whose `cancelCtxFunc` is nil panics at line 172, and a
Flex search whose first fetch succeeds with `TotalNbVehicles = 1` and an empty vehicle list
panics at line 156; in both the channel receives -1 once. -/
theorem goroutine_panic_sends_sentinel_once_witness :
    searchCar planarOps 1 .SearchingStation montreal
        ((constEnv (fun _ => false) .transportError (.response 503 none)).withCancelFunc .nil)
      = .panicked [] ∧
    SearchStationCarForGoRoutine planarOps 1 montreal
        ((constEnv (fun _ => false) .transportError (.response 503 none)).withCancelFunc .nil)
      = .returned 0 [-1] ∧
    searchCar planarOps 1 .SearchingFlex montreal
        (constEnv (fun _ => false) (.response 200 (some ⟨1, []⟩)) .transportError)
      = .panicked [] ∧
    SearchFlexCarForGoRoutine planarOps 1 montreal
        (constEnv (fun _ => false) (.response 200 (some ⟨1, []⟩)) .transportError)
      = .returned 0 [-1] :=
  ⟨rfl,
    goroutine_panic_sends_sentinel_once planarOps 1 montreal
      ((constEnv (fun _ => false) .transportError (.response 503 none)).withCancelFunc .nil) _
      (Or.inl ⟨[], rfl, rfl⟩),
    rfl,
    goroutine_panic_sends_sentinel_once planarOps 1 montreal
      (constEnv (fun _ => false) (.response 200 (some ⟨1, []⟩)) .transportError) _
      (Or.inr ⟨[], rfl, rfl⟩)⟩

/-! ## The Flex fallback -/

/-- C10, failing input: for the response with `TotalNbVehicles = 1` and an empty vehicle
list, `closestVehicle` is called on the empty list and returns nil, the fallback reads
`Vehicles[0]` of the empty list, and the search body panics with nothing sent. -/
theorem flex_fallback_index_out_of_range :
    closestVehicle planarOps ([] : List (vehicle ℚ)) ⟨montreal.latitude, montreal.longitude⟩
      = none ∧
    flexCount planarOps ⟨1, []⟩ montreal = none ∧
    searchCar planarOps 1 .SearchingFlex montreal
        (constEnv (fun _ => false) (.response 200 (some ⟨1, []⟩)) .transportError)
      = .panicked [] := by
  refine ⟨rfl, rfl, rfl⟩

end Communautofinder
